import Mathlib

/-!
Shallow embedding of `frigate_reviewer.py`: a service that re-validates
object-detection events.  An MQTT callback (`on_message`) parses inbound
JSON messages and enqueues normalized events; a worker thread pops events
and runs `process_event`, which fetches the event snapshot, runs a detector
over it, decides `valid` / `false_positive`, writes audit artifacts under
`reviewed_images/{debug,true,false}`, and calls the external
mark-as-false-positive API for false positives.

External effects (HTTP fetch, detector invocation, wall clock, file system,
MQTT transport) are modelled as explicit inputs/outputs of the embedded
functions: the fetch outcome and the detector's result list are parameters,
and the set of API calls and file writes performed is returned as data.
-/

namespace FrigateReviewer

/-- Values produced by Python's `json.loads`, as used by the listener.
`null` also stands for Python `None`, which is what `dict.get` returns for
an absent key.  Numbers in inbound messages are modelled as integers (no
claim depends on fractional message fields). -/
inductive Json where
  | null
  | bool (b : Bool)
  | num (n : Int)
  | str (s : String)
  | arr (l : List Json)
  | obj (l : List (String × Json))

/-- Python truthiness (`if not x`) for the JSON values above:
`None`, `False`, `0`, `""`, `[]`, `{}` are falsy, everything else truthy. -/
def Json.truthy : Json → Bool
  | .null => false
  | .bool b => b
  | .num n => n != 0
  | .str s => s != ""
  | .arr l => !l.isEmpty
  | .obj l => !l.isEmpty

/-- Python `x == "lit"` for a JSON value: true exactly when `x` is that
string. -/
def Json.isStrEq (j : Json) (s : String) : Bool :=
  match j with
  | .str t => t == s
  | _ => false

/-- Key lookup in a decoded JSON object (Python dict).  Dicts produced by
`json.loads` have unique keys, so first-match lookup is faithful. -/
def jlookup : List (String × Json) → String → Option Json
  | [], _ => none
  | (k, v) :: rest, key => if k == key then some v else jlookup rest key

/-- Python `d.get(key, default)`: `default` when the key is absent (note:
a key explicitly bound to `null` yields `null`, not the default).
Calling `.get` on a non-dict raises `AttributeError`, modelled as
`Except.error`. -/
def pyGet (j : Json) (key : String) (default : Json) : Except Unit Json :=
  match j with
  | .obj l => .ok ((jlookup l key).getD default)
  | _ => .error ()

/-- The normalized event dict built by `on_message`
(`{'id': ..., 'camera': ..., 'labels': ..., 'has_snapshot': ...}`). -/
structure Event where
  id : Json
  camera : Json
  labels : Json
  has_snapshot : Json

/-- A raw inbound MQTT message: either its payload fails JSON decoding,
or it decodes to a JSON value. -/
inductive RawMsg where
  | invalid
  | payload (j : Json)

/-- What one `on_message` invocation does: return without enqueuing
(parse failure, wrong type, missing id), enqueue exactly one event, or
let an exception escape the callback. -/
inductive ListenerOutcome where
  | discarded
  | enqueued (e : Event)
  | crashed

/-- Embedding of `on_message` (src lines 58-89).  `json.JSONDecodeError`
is caught and the message discarded; only messages with `type == 'end'`
are considered; the payload's `after` record (defaulted to `{}`) supplies
`id`, `camera`, `labels` (default `[]`) and `has_snapshot` (default
`False`); a falsy id is discarded; otherwise one event is enqueued.
An `AttributeError` from calling `.get` on a non-dict payload or `after`
value is NOT caught and escapes the callback. -/
def on_message : RawMsg → ListenerOutcome
  | .invalid => .discarded
  | .payload p =>
    match pyGet p "type" .null with
    | .error _ => .crashed
    | .ok event_type =>
      if event_type.isStrEq "end" then
        match pyGet p "after" (.obj []) with
        | .error _ => .crashed
        | .ok aft =>
          match aft with
          | .obj a =>
            let event_id := (jlookup a "id").getD .null
            let camera := (jlookup a "camera").getD .null
            let labels := (jlookup a "labels").getD (.arr [])
            let has_snapshot := (jlookup a "has_snapshot").getD (.bool false)
            if event_id.truthy then
              .enqueued ⟨event_id, camera, labels, has_snapshot⟩
            else
              .discarded
          | _ => .crashed
      else .discarded

/-- The events one message adds to `event_queue` (at most one `put`). -/
def enqueues (m : RawMsg) : List Event :=
  match on_message m with
  | .enqueued e => [e]
  | _ => []

/-- A finished-event message carrying a (truthy) identifier: payload is a
JSON object with `type == "end"` whose `after` field (defaulted to `{}`)
is an object with a truthy `id`.  This is exactly the enqueue condition
of `on_message`. -/
def isEndWithId : RawMsg → Bool
  | .invalid => false
  | .payload (.obj l) =>
    ((jlookup l "type").getD .null).isStrEq "end"
      && (match (jlookup l "after").getD (.obj []) with
          | .obj a => ((jlookup a "id").getD .null).truthy
          | _ => false)
  | .payload _ => false

/-- A payload of the shape the listener expects to operate on without
raising: a JSON object whose `after` field, when present, is an object.
(`RawMsg.invalid` and every other payload shape is malformed.) -/
def expectedShape : RawMsg → Bool
  | .invalid => false
  | .payload (.obj l) =>
    match (jlookup l "after").getD (.obj []) with
    | .obj _ => true
    | _ => false
  | .payload _ => false

/-! ## Validation (`process_event`, src lines 108-200) -/

/-- `CONFIDENCE_THRESHOLD = 0.5` (src line 44). -/
def CONFIDENCE_THRESHOLD : ℚ := 1/2

/-- `TARGET_CLASSES = {'person', 'car', 'truck', 'dog', 'cat'}`
(src line 45). -/
def TARGET_CLASSES : List String := ["person", "car", "truck", "dog", "cat"]

/-- One YOLO detection as recorded in `detection_info`: class label,
confidence and bounding box.  Python floats are modelled as rationals. -/
structure DetectionResult where
  class_name : String
  confidence : ℚ
  bbox : List ℚ

/-- The per-result test of src lines 163-164: class label in the target
set AND confidence strictly above the threshold. -/
def qualifies (targets : List String) (threshold : ℚ) (d : DetectionResult) : Bool :=
  targets.contains d.class_name && decide (threshold < d.confidence)

/-- The detection scan loop (src lines 142-169): every examined result is
appended to `detections` first; on the first qualifying result
`valid_detection` is set and the loop `break`s.  Returns
`(valid_detection, detections)`: the flag and the considered results
(all results up to and including the first qualifying one). -/
def scanDetections (targets : List String) (threshold : ℚ) :
    List DetectionResult → Bool × List DetectionResult
  | [] => (false, [])
  | d :: rest =>
    if qualifies targets threshold d then
      (true, [d])
    else
      let r := scanDetections targets threshold rest
      (r.1, d :: r.2)

/-- Outcome of the snapshot fetch + decode (src lines 124-131): the image
bytes, or any exception from `requests.get` / `raise_for_status` /
`Image.open` (all caught by the same handler). -/
inductive FetchResult where
  | ok (image_data : List Nat)
  | failed

/-- Final outcome of one `process_event` run. -/
inductive Outcome where
  | skipped
  | failed
  | valid
  | false_positive
  deriving DecidableEq

/-- The `debug_info` record written to `detection_details.json`
(src lines 172-179), minus the wall-clock `timestamp` field (an external
effect carrying no information about the decision). -/
structure DebugInfo where
  event_id : Json
  camera : Json
  detections : List DetectionResult
  confidence_threshold : ℚ
  final_decision : String

/-- One file write performed by `process_event`, tagged by the directory
it lands in:
`debugJson id info` = `reviewed_images/debug/{id}/detection_details.json`,
`debugImage id img` = `reviewed_images/debug/{id}/snapshot.jpg`,
`trueImage id img`  = `reviewed_images/true/{id}.jpg`,
`falseImage id img` = `reviewed_images/false/{id}.jpg`. -/
inductive AuditWrite where
  | debugJson (event_id : Json) (info : DebugInfo)
  | debugImage (event_id : Json) (img : List Nat)
  | trueImage (event_id : Json) (img : List Nat)
  | falseImage (event_id : Json) (img : List Nat)

/-- The top-level directory (partition category) a write lands under. -/
def AuditWrite.category : AuditWrite → String
  | .debugJson _ _ => "debug"
  | .debugImage _ _ => "debug"
  | .trueImage _ _ => "true"
  | .falseImage _ _ => "false"

/-- The event identifier a write is keyed by. -/
def AuditWrite.key : AuditWrite → Json
  | .debugJson i _ => i
  | .debugImage i _ => i
  | .trueImage i _ => i
  | .falseImage i _ => i

/-- Everything one `process_event` run does: its final outcome, the
identifiers passed to `mark_event_as_false_positive`, the file writes in
program order, and whether the snapshot fetch / the detector were
invoked at all. -/
structure ProcResult where
  outcome : Outcome
  fpCalls : List Json
  writes : List AuditWrite
  fetchAttempted : Bool
  detectorInvoked : Bool

/-- Embedding of `process_event` (src lines 108-200).  Parameters `fetch`
and `dets` are the environment's answers: what the snapshot fetch+decode
returns, and what the YOLO model returns on the decoded image.
Control flow: falsy `has_snapshot` returns immediately; a fetch/decode
exception is caught, logged and the function returns; otherwise the scan
runs, the debug record and snapshot are written under `debug/{id}`, and
the image is filed under `true/{id}.jpg` (valid) or `false/{id}.jpg`
(false positive), the latter after one `mark_event_as_false_positive`
call. -/
def process_event (ev : Event) (fetch : FetchResult)
    (dets : List DetectionResult) : ProcResult :=
  if ev.has_snapshot.truthy = false then
    ⟨.skipped, [], [], false, false⟩
  else
    match fetch with
    | .failed => ⟨.failed, [], [], true, false⟩
    | .ok image_data =>
      let scanned := scanDetections TARGET_CLASSES CONFIDENCE_THRESHOLD dets
      let valid_detection := scanned.1
      let detections := scanned.2
      let debug_info : DebugInfo :=
        ⟨ev.id, ev.camera, detections, CONFIDENCE_THRESHOLD,
          if valid_detection then "valid" else "false_positive"⟩
      if valid_detection then
        ⟨.valid, [],
          [.debugJson ev.id debug_info, .debugImage ev.id image_data,
            .trueImage ev.id image_data], true, true⟩
      else
        ⟨.false_positive, [ev.id],
          [.debugJson ev.id debug_info, .debugImage ev.id image_data,
            .falseImage ev.id image_data], true, true⟩

/-! ## Worker loop (`worker`, src lines 202-217, and shutdown, 250-255)

One worker iteration is: check `stop_event` (the `while` condition); if
set, exit the loop without touching the queue; otherwise `get(timeout=1)`
— `queue.Empty` just continues the loop — and on a delivered event run
`process_event` inside `try/except Exception`, so a raised exception is
logged and the loop resumes.  The external stop signal may be set by the
supervisor at any time during an iteration (`stopNow`); it is only
observed at the next `while` check, so a dequeued event's pipeline always
runs to completion. -/

/-- Worker-visible state: the queue contents in FIFO order, the
`stop_event` flag as last observed, the fully completed per-event
pipelines (event paired with everything `process_event` did for it), and
the log lines emitted by the worker's exception handler. -/
structure WorkerState where
  pending : List Event
  stopFlag : Bool
  processed : List (Event × ProcResult)
  logs : List String

/-- One iteration of the `worker` loop.  `proc` is the behaviour of the
`process_event` chain for each event: `.ok r` when it returns normally
having performed `r`, `.error msg` when it raises an exception rendered
as `msg`.  The result is `Except`-valued so that an exception escaping
the loop body would be `.error`; the returned `Bool` is whether the loop
continues to another iteration.  The `try/except Exception` at src lines
207-217 means every branch returns `.ok`: a processing exception only
appends the log line `"Error processing event: " ++ msg` (which does not
mention the event identifier) and the loop resumes. -/
def workerIter (proc : Event → Except String ProcResult) (stopNow : Bool)
    (s : WorkerState) : Except String (WorkerState × Bool) :=
  if s.stopFlag then
    .ok (s, false)
  else
    match s.pending with
    | [] => .ok ({ s with stopFlag := s.stopFlag || stopNow }, true)
    | e :: rest =>
      match proc e with
      | .ok r =>
        .ok (⟨rest, s.stopFlag || stopNow, s.processed ++ [(e, r)], s.logs⟩, true)
      | .error msg =>
        .ok (⟨rest, s.stopFlag || stopNow, s.processed,
          s.logs ++ ["Error processing event: " ++ msg]⟩, true)

/-- The worker loop run against a schedule of external stop-signal
arrivals, one Boolean per iteration (`true` = the supervisor sets
`stop_event` during that iteration).  Stops when the loop exits or the
schedule ends. -/
def workerRun (proc : Event → Except String ProcResult) :
    List Bool → WorkerState → Except String WorkerState
  | [], s => .ok s
  | b :: bs, s =>
    match workerIter proc b s with
    | .ok (s2, true) => workerRun proc bs s2
    | .ok (s2, false) => .ok s2
    | .error msg => .error msg

/-! ## Helper lemmas -/

/-- The scan's flag is the Boolean existence of a qualifying result. -/
lemma scanDetections_fst_any (t : List String) (th : ℚ)
    (l : List DetectionResult) :
    (scanDetections t th l).1 = l.any (qualifies t th) := by
  induction l with
  | nil => rfl
  | cons d rest ih =>
    by_cases hq : qualifies t th d = true
    · simp [scanDetections, hq]
    · simp only [Bool.not_eq_true] at hq
      simp [scanDetections, hq, ih]

/-- `qualifies` unfolded to its propositional form. -/
lemma qualifies_iff (t : List String) (th : ℚ) (d : DetectionResult) :
    qualifies t th d = true ↔ d.class_name ∈ t ∧ th < d.confidence := by
  simp [qualifies]

/-- The scan's flag is true iff some result in the list is in the target
set with confidence strictly above the threshold. -/
lemma scanDetections_fst_iff_exists (t : List String) (th : ℚ)
    (l : List DetectionResult) :
    (scanDetections t th l).1 = true ↔
      ∃ d ∈ l, d.class_name ∈ t ∧ th < d.confidence := by
  rw [scanDetections_fst_any, List.any_eq_true]
  constructor
  · rintro ⟨d, hd, hq⟩
    exact ⟨d, hd, (qualifies_iff t th d).mp hq⟩
  · rintro ⟨d, hd, hq⟩
    exact ⟨d, hd, (qualifies_iff t th d).mpr hq⟩

/-- `List.any` is invariant under permutation. -/
lemma perm_any_eq {α : Type} {l l2 : List α} (p : α → Bool)
    (h : l.Perm l2) : l.any p = l2.any p := by
  rw [Bool.eq_iff_iff, List.any_eq_true, List.any_eq_true]
  constructor
  · rintro ⟨x, hx, hpx⟩
    exact ⟨x, h.mem_iff.mp hx, hpx⟩
  · rintro ⟨x, hx, hpx⟩
    exact ⟨x, h.mem_iff.mpr hx, hpx⟩

/-- `process_event` on a truthy snapshot flag and a successful fetch,
expressed by the scan result. -/
lemma process_event_ok (ev : Event) (img : List Nat)
    (dets : List DetectionResult) (h : ev.has_snapshot.truthy = true) :
    process_event ev (.ok img) dets =
      if (scanDetections TARGET_CLASSES CONFIDENCE_THRESHOLD dets).1 then
        ⟨.valid, [],
          [.debugJson ev.id
              ⟨ev.id, ev.camera,
                (scanDetections TARGET_CLASSES CONFIDENCE_THRESHOLD dets).2,
                CONFIDENCE_THRESHOLD, "valid"⟩,
            .debugImage ev.id img, .trueImage ev.id img], true, true⟩
      else
        ⟨.false_positive, [ev.id],
          [.debugJson ev.id
              ⟨ev.id, ev.camera,
                (scanDetections TARGET_CLASSES CONFIDENCE_THRESHOLD dets).2,
                CONFIDENCE_THRESHOLD, "false_positive"⟩,
            .debugImage ev.id img, .falseImage ev.id img], true, true⟩ := by
  by_cases hv : (scanDetections TARGET_CLASSES CONFIDENCE_THRESHOLD dets).1 = true
  · simp [process_event, h, hv]
  · simp only [Bool.not_eq_true] at hv
    simp [process_event, h, hv]

/-! ## Claims -/

/-- C1: for every processed event whose snapshot fetch and decode
succeed, the decision is `valid` iff the detector's result list contains
a result whose class is in `TARGET_CLASSES` with confidence strictly
above `CONFIDENCE_THRESHOLD`; otherwise the decision is `false_positive`
and exactly one mark-false-positive call is issued with the event's
identifier, while a `valid` decision issues no such call. -/
theorem C1_decision_and_dispatch (ev : Event) (img : List Nat)
    (dets : List DetectionResult) (h : ev.has_snapshot.truthy = true) :
    ((process_event ev (.ok img) dets).outcome = .valid ↔
      ∃ d ∈ dets, d.class_name ∈ TARGET_CLASSES ∧
        CONFIDENCE_THRESHOLD < d.confidence)
    ∧ ((process_event ev (.ok img) dets).outcome = .valid ∨
        (process_event ev (.ok img) dets).outcome = .false_positive)
    ∧ ((process_event ev (.ok img) dets).outcome = .false_positive →
        (process_event ev (.ok img) dets).fpCalls = [ev.id])
    ∧ ((process_event ev (.ok img) dets).outcome = .valid →
        (process_event ev (.ok img) dets).fpCalls = []) := by
  rw [process_event_ok ev img dets h]
  by_cases hv : (scanDetections TARGET_CLASSES CONFIDENCE_THRESHOLD dets).1 = true
  · simp [hv, ← scanDetections_fst_iff_exists]
  · simp only [Bool.not_eq_true] at hv
    simp [hv, ← scanDetections_fst_iff_exists]

/-- C1 witness: Scenario A of the spec — one `person` detection at
confidence 0.82 against threshold 0.5 yields `valid` and no
false-positive call. -/
theorem C1_decision_and_dispatch_witness :
    (process_event ⟨.str "evt-1", .str "cam", .arr [.str "person"], .bool true⟩
        (.ok [0, 1])
        [⟨"person", 82/100, [0, 0, 0, 0]⟩]).outcome = .valid ∨
      (process_event ⟨.str "evt-1", .str "cam", .arr [.str "person"], .bool true⟩
        (.ok [0, 1])
        [⟨"person", 82/100, [0, 0, 0, 0]⟩]).outcome = .false_positive :=
  (C1_decision_and_dispatch
    ⟨.str "evt-1", .str "cam", .arr [.str "person"], .bool true⟩
    [0, 1] [⟨"person", 82/100, [0, 0, 0, 0]⟩] rfl).2.1

/-- C8: the `valid`/`false_positive` decision is independent of the
order in which the detector's results are scanned — the short-circuit
scan flag is the same on every permutation of the result list — even
though the recorded evidence trail (the considered-results list) can
differ between permutations. -/
theorem C8_decision_order_independent :
    (∀ (t : List String) (th : ℚ) (l l2 : List DetectionResult),
      l.Perm l2 → (scanDetections t th l).1 = (scanDetections t th l2).1)
    ∧ (∃ (t : List String) (th : ℚ) (l l2 : List DetectionResult),
        l.Perm l2 ∧ (scanDetections t th l).2 ≠ (scanDetections t th l2).2) := by
  constructor
  · intro t th l l2 h
    rw [scanDetections_fst_any, scanDetections_fst_any]
    exact perm_any_eq (qualifies t th) h
  · refine ⟨["person"], 0, [⟨"person", 1, []⟩, ⟨"tree", 0, []⟩],
      [⟨"tree", 0, []⟩, ⟨"person", 1, []⟩],
      List.Perm.swap (⟨"tree", 0, []⟩ : DetectionResult) ⟨"person", 1, []⟩ [], ?_⟩
    have h1 : qualifies ["person"] 0 ⟨"person", 1, []⟩ = true := by
      rw [qualifies_iff]
      norm_num
    have h2 : qualifies ["person"] 0 ⟨"tree", 0, []⟩ = false := by
      simp [qualifies]
    simp [scanDetections, h1, h2]

/-- C8 witness: the decision flag agrees on a concrete two-element
result list and its swap. -/
theorem C8_decision_order_independent_witness :
    (scanDetections ["person"] 0
        [⟨"person", 1, []⟩, ⟨"tree", 0, []⟩]).1 =
      (scanDetections ["person"] 0
        [⟨"tree", 0, []⟩, ⟨"person", 1, []⟩]).1 :=
  C8_decision_order_independent.1 ["person"] 0
    [⟨"person", 1, []⟩, ⟨"tree", 0, []⟩]
    [⟨"tree", 0, []⟩, ⟨"person", 1, []⟩]
    (List.Perm.swap (⟨"tree", 0, []⟩ : DetectionResult) ⟨"person", 1, []⟩ [])

/-- C2 counterexample: Scenario C's event (`evt-3`, `has_snapshot`
false) is skipped, but `process_event` performs zero writes — no skipped
audit record of any kind is produced, contradicting the claim that the
event is still auditable via a skipped audit record. -/
theorem C2_no_skipped_audit_record_counterexample :
    (process_event ⟨.str "evt-3", .str "cam", .arr [], .bool false⟩
        FetchResult.failed []).outcome = .skipped
    ∧ (process_event ⟨.str "evt-3", .str "cam", .arr [], .bool false⟩
        FetchResult.failed []).writes = [] :=
  ⟨rfl, rfl⟩

/-- C2 (amended): for every event with a falsy `has_snapshot`,
processing performs no snapshot fetch, no detector invocation, no
dispatch call and no audit write; the outcome is `skipped` (the skip is
only logged, no skipped audit record is persisted). -/
theorem C2_skipped_event (ev : Event) (fetch : FetchResult)
    (dets : List DetectionResult) (h : ev.has_snapshot.truthy = false) :
    process_event ev fetch dets = ⟨.skipped, [], [], false, false⟩ := by
  simp [process_event, h]

/-- C2 witness: Scenario C's event evaluates to the skipped result. -/
theorem C2_skipped_event_witness :
    process_event ⟨.str "evt-3", .str "cam", .arr [], .bool false⟩
        FetchResult.failed [] = ⟨.skipped, [], [], false, false⟩ :=
  C2_skipped_event ⟨.str "evt-3", .str "cam", .arr [], .bool false⟩
    FetchResult.failed [] rfl

/-- C3: for every event whose snapshot fetch or decode fails, the
outcome is `failed`, no decision is rendered (the outcome is neither
`valid` nor `false_positive`), no false-positive call is dispatched, no
audit record is written, the detector is never invoked — and the worker
loop, fed such an event, completes the iteration normally and continues
(loop flag `true`, stop flag still unset) to serve subsequent events. -/
theorem C3_fetch_failure (ev : Event) (dets : List DetectionResult)
    (h : ev.has_snapshot.truthy = true) :
    process_event ev .failed dets = ⟨.failed, [], [], true, false⟩
    ∧ ∀ (proc : Event → Except String ProcResult) (s : WorkerState)
        (rest : List Event),
        s.stopFlag = false → s.pending = ev :: rest →
        proc ev = .ok (process_event ev .failed dets) →
        workerIter proc false s =
          .ok (⟨rest, false, s.processed ++ [(ev, ⟨.failed, [], [], true, false⟩)],
            s.logs⟩, true) := by
  have hres : process_event ev .failed dets = ⟨.failed, [], [], true, false⟩ := by
    simp [process_event, h]
  refine ⟨hres, ?_⟩
  intro proc s rest hs hp hproc
  rw [hres] at hproc
  simp [workerIter, hs, hp, hproc]

/-- C3 witness: Scenario D — the fetch for `evt-4` fails; the event is
`failed` with no calls and no writes, and a worker holding it as the
only queued item finishes the iteration and keeps looping. -/
theorem C3_fetch_failure_witness :
    process_event ⟨.str "evt-4", .str "cam", .arr [], .bool true⟩ .failed []
        = ⟨.failed, [], [], true, false⟩
    ∧ workerIter
        (fun e => .ok (process_event e .failed []))
        false
        ⟨[⟨.str "evt-4", .str "cam", .arr [], .bool true⟩], false, [], []⟩ =
      .ok (⟨[], false,
        [(⟨.str "evt-4", .str "cam", .arr [], .bool true⟩,
          ⟨.failed, [], [], true, false⟩)], []⟩, true) := by
  have h := C3_fetch_failure ⟨.str "evt-4", .str "cam", .arr [], .bool true⟩ [] rfl
  exact ⟨h.1, h.2 (fun e => .ok (process_event e .failed []))
    ⟨[⟨.str "evt-4", .str "cam", .arr [], .bool true⟩], false, [], []⟩ []
    rfl rfl (by simp only [h.1])⟩

/-- C9 counterexample: Scenario A (`evt-1`, one `person` detection at
confidence 0.82, threshold 0.5) renders `valid`, but no audit artifact
is written under a `valid` category: the writes land under `debug`,
`debug` and `true` — the code has no `valid` / `false_positive` /
`skipped` / `failed` partition at all. -/
theorem C9_no_valid_partition_counterexample :
    (process_event ⟨.str "evt-1", .str "cam", .arr [.str "person"], .bool true⟩
        (.ok [7]) [⟨"person", 82/100, [0, 0, 0, 0]⟩]).outcome = .valid
    ∧ ((process_event ⟨.str "evt-1", .str "cam", .arr [.str "person"], .bool true⟩
        (.ok [7]) [⟨"person", 82/100, [0, 0, 0, 0]⟩]).writes.map
          AuditWrite.category = ["debug", "debug", "true"])
    ∧ "valid" ∉ ((process_event
        ⟨.str "evt-1", .str "cam", .arr [.str "person"], .bool true⟩
        (.ok [7]) [⟨"person", 82/100, [0, 0, 0, 0]⟩]).writes.map
          AuditWrite.category) := by
  have hq : qualifies TARGET_CLASSES CONFIDENCE_THRESHOLD
      ⟨"person", 82/100, [0, 0, 0, 0]⟩ = true := by
    rw [qualifies_iff]
    refine ⟨by simp [TARGET_CLASSES], ?_⟩
    norm_num [CONFIDENCE_THRESHOLD]
  rw [process_event_ok
    ⟨.str "evt-1", .str "cam", .arr [.str "person"], .bool true⟩
    [7] [⟨"person", 82/100, [0, 0, 0, 0]⟩] rfl]
  simp [scanDetections, hq, AuditWrite.category]

/-- C9 (amended): for every event that reaches a decision, the audit
artifacts are keyed by the event identifier and written under the
categories `debug` (decision record and raw snapshot) plus `true` for a
valid decision or `false` for a false positive; the record carries the
decision, the threshold, the camera and every considered
`DetectionResult` (the target classes are not recorded); skipped and
failed events produce no audit writes at all. -/
theorem C9_audit_layout (ev : Event) (img : List Nat)
    (dets : List DetectionResult) (h : ev.has_snapshot.truthy = true) :
    ((process_event ev (.ok img) dets).writes =
      [.debugJson ev.id
          ⟨ev.id, ev.camera,
            (scanDetections TARGET_CLASSES CONFIDENCE_THRESHOLD dets).2,
            CONFIDENCE_THRESHOLD,
            if (scanDetections TARGET_CLASSES CONFIDENCE_THRESHOLD dets).1 then
              "valid" else "false_positive"⟩,
        .debugImage ev.id img,
        if (scanDetections TARGET_CLASSES CONFIDENCE_THRESHOLD dets).1 then
          .trueImage ev.id img else .falseImage ev.id img])
    ∧ ((process_event ev (.ok img) dets).writes.map AuditWrite.key =
        [ev.id, ev.id, ev.id])
    ∧ ((process_event ev (.ok img) dets).writes.map AuditWrite.category =
        ["debug", "debug",
          if (scanDetections TARGET_CLASSES CONFIDENCE_THRESHOLD dets).1 then
            "true" else "false"])
    ∧ (process_event ev .failed dets).writes = []
    ∧ (∀ (ev2 : Event) (fetch : FetchResult) (dets2 : List DetectionResult),
        ev2.has_snapshot.truthy = false →
        (process_event ev2 fetch dets2).writes = []) := by
  refine ⟨?_, ?_, ?_, ?_, ?_⟩
  · rw [process_event_ok ev img dets h]
    by_cases hv : (scanDetections TARGET_CLASSES CONFIDENCE_THRESHOLD dets).1 = true
    · simp [hv]
    · simp only [Bool.not_eq_true] at hv
      simp [hv]
  · rw [process_event_ok ev img dets h]
    by_cases hv : (scanDetections TARGET_CLASSES CONFIDENCE_THRESHOLD dets).1 = true
    · simp [hv, AuditWrite.key]
    · simp only [Bool.not_eq_true] at hv
      simp [hv, AuditWrite.key]
  · rw [process_event_ok ev img dets h]
    by_cases hv : (scanDetections TARGET_CLASSES CONFIDENCE_THRESHOLD dets).1 = true
    · simp [hv, AuditWrite.category]
    · simp only [Bool.not_eq_true] at hv
      simp [hv, AuditWrite.category]
  · simp [process_event, h]
  · intro ev2 fetch dets2 h2
    simp [process_event, h2]

/-- C9 witness: the write categories for Scenario A's valid decision. -/
theorem C9_audit_layout_witness :
    (process_event ⟨.str "evt-1", .str "cam", .arr [.str "person"], .bool true⟩
        (.ok [7]) []).writes.map AuditWrite.category =
      ["debug", "debug",
        if (scanDetections TARGET_CLASSES CONFIDENCE_THRESHOLD []).1 then
          "true" else "false"] :=
  (C9_audit_layout ⟨.str "evt-1", .str "cam", .arr [.str "person"], .bool true⟩
    [7] [] rfl).2.2.1

/-- C5 counterexample: the payload `[1, 2]` is valid JSON but not the
expected structured data; `on_message` raises (`AttributeError` from
`payload.get` on a list) and the exception escapes the callback — only
`json.JSONDecodeError` is caught.  Nothing is enqueued. -/
theorem C5_nonobject_payload_crashes_counterexample :
    on_message (.payload (.arr [.num 1, .num 2])) = .crashed
    ∧ enqueues (.payload (.arr [.num 1, .num 2])) = [] :=
  ⟨rfl, rfl⟩

/-- The decoded payloads on which `on_message` raises an uncaught
`AttributeError`, read off the code: a non-object payload (its
`payload.get('type')` raises), or an object whose type is `"end"` and
whose `after` field is present with a non-object value (the
`event.get(...)` calls raise; with any other type the guard at src line
70 discards the message before `after` is touched). -/
def crashes : Json → Bool
  | .obj l =>
    ((jlookup l "type").getD .null).isStrEq "end"
      && (match (jlookup l "after").getD (.obj []) with
          | .obj _ => false
          | _ => true)
  | _ => true

/-- C5 (amended): for every malformed inbound payload the queue is
unaffected — nothing is enqueued — and a payload that fails JSON
decoding is logged and discarded with no exception; however an
exception escapes the listener callback exactly for a payload that
decodes to a non-object JSON value, or to an object of type `"end"`
whose `after` field is present with a non-object value (any other
message is handled without exception). -/
theorem C5_malformed_payloads (m : RawMsg) (h : expectedShape m = false) :
    enqueues m = []
    ∧ on_message RawMsg.invalid = .discarded
    ∧ enqueues RawMsg.invalid = []
    ∧ ∀ p, (on_message (.payload p) = .crashed ↔ crashes p = true) := by
  refine ⟨?_, rfl, rfl, ?_⟩
  · cases m with
    | invalid => rfl
    | payload p =>
      cases p with
      | obj l =>
        simp only [expectedShape] at h
        cases haft : (jlookup l "after").getD (.obj []) with
        | obj a => rw [haft] at h; simp at h
        | null =>
          by_cases ht : ((jlookup l "type").getD Json.null).isStrEq "end" = true
          · simp [enqueues, on_message, pyGet, ht, haft]
          · simp only [Bool.not_eq_true] at ht
            simp [enqueues, on_message, pyGet, ht]
        | bool b =>
          by_cases ht : ((jlookup l "type").getD Json.null).isStrEq "end" = true
          · simp [enqueues, on_message, pyGet, ht, haft]
          · simp only [Bool.not_eq_true] at ht
            simp [enqueues, on_message, pyGet, ht]
        | num n =>
          by_cases ht : ((jlookup l "type").getD Json.null).isStrEq "end" = true
          · simp [enqueues, on_message, pyGet, ht, haft]
          · simp only [Bool.not_eq_true] at ht
            simp [enqueues, on_message, pyGet, ht]
        | str t =>
          by_cases ht : ((jlookup l "type").getD Json.null).isStrEq "end" = true
          · simp [enqueues, on_message, pyGet, ht, haft]
          · simp only [Bool.not_eq_true] at ht
            simp [enqueues, on_message, pyGet, ht]
        | arr l2 =>
          by_cases ht : ((jlookup l "type").getD Json.null).isStrEq "end" = true
          · simp [enqueues, on_message, pyGet, ht, haft]
          · simp only [Bool.not_eq_true] at ht
            simp [enqueues, on_message, pyGet, ht]
      | null => simp [enqueues, on_message, pyGet]
      | bool b => simp [enqueues, on_message, pyGet]
      | num n => simp [enqueues, on_message, pyGet]
      | str s => simp [enqueues, on_message, pyGet]
      | arr l2 => simp [enqueues, on_message, pyGet]
  · intro p
    cases p with
    | obj l =>
      by_cases ht : ((jlookup l "type").getD Json.null).isStrEq "end" = true
      · cases haft : (jlookup l "after").getD (.obj []) with
        | obj a =>
          by_cases hid : ((jlookup a "id").getD Json.null).truthy = true
          · simp [on_message, pyGet, crashes, ht, haft, hid]
          · simp only [Bool.not_eq_true] at hid
            simp [on_message, pyGet, crashes, ht, haft, hid]
        | null => simp [on_message, pyGet, crashes, ht, haft]
        | bool b => simp [on_message, pyGet, crashes, ht, haft]
        | num n => simp [on_message, pyGet, crashes, ht, haft]
        | str t => simp [on_message, pyGet, crashes, ht, haft]
        | arr l2 => simp [on_message, pyGet, crashes, ht, haft]
      · simp only [Bool.not_eq_true] at ht
        simp [on_message, pyGet, crashes, ht]
    | null => simp [on_message, pyGet, crashes]
    | bool b => simp [on_message, pyGet, crashes]
    | num n => simp [on_message, pyGet, crashes]
    | str s => simp [on_message, pyGet, crashes]
    | arr l2 => simp [on_message, pyGet, crashes]

/-- C5 witness: a plain string payload is malformed — nothing enters
the queue for it — and the crash characterisation instantiated both
ways: the string payload does raise, while an end-typed object payload
with a non-`after` shape intact (`{"type":"start","after":[1]}`) does
not. -/
theorem C5_malformed_payloads_witness :
    enqueues (.payload (.str "hi")) = []
    ∧ (on_message (.payload (.str "hi")) = .crashed ↔
        crashes (.str "hi") = true)
    ∧ (on_message (.payload (.obj [("type", .str "start"),
          ("after", .arr [.num 1])])) = .crashed ↔
        crashes (.obj [("type", .str "start"),
          ("after", .arr [.num 1])]) = true) :=
  ⟨(C5_malformed_payloads (.payload (.str "hi")) rfl).1,
    (C5_malformed_payloads (.payload (.str "hi")) rfl).2.2.2 (.str "hi"),
    (C5_malformed_payloads (.payload (.str "hi")) rfl).2.2.2
      (.obj [("type", .str "start"), ("after", .arr [.num 1])])⟩

/-- C6: a message causes an enqueue exactly when it is a finished-event
(`type == "end"`) message whose `after` record carries a truthy
identifier; exactly one event is enqueued for such a message; every
enqueued event's identifier is truthy (for a string id: non-empty); and
any other message puts nothing on the queue. -/
theorem C6_enqueue_characterisation (m : RawMsg) :
    ((∃ e, on_message m = .enqueued e) ↔ isEndWithId m = true)
    ∧ (∀ e, on_message m = .enqueued e →
        e.id.truthy = true ∧ enqueues m = [e])
    ∧ (isEndWithId m = false → enqueues m = []) := by
  cases m with
  | invalid => simp [on_message, isEndWithId, enqueues]
  | payload p =>
    cases p with
    | obj l =>
      by_cases ht : ((jlookup l "type").getD Json.null).isStrEq "end" = true
      · cases haft : (jlookup l "after").getD (.obj []) with
        | obj a =>
          by_cases hid : ((jlookup a "id").getD Json.null).truthy = true
          · refine ⟨?_, ?_, ?_⟩
            · simp [on_message, isEndWithId, pyGet, ht, haft, hid]
            · intro e he
              have hmsg : on_message (RawMsg.payload (Json.obj l)) =
                  .enqueued ⟨(jlookup a "id").getD Json.null,
                    (jlookup a "camera").getD Json.null,
                    (jlookup a "labels").getD (Json.arr []),
                    (jlookup a "has_snapshot").getD (Json.bool false)⟩ := by
                simp [on_message, pyGet, ht, haft, hid]
              rw [hmsg] at he
              injection he with he2
              refine ⟨?_, ?_⟩
              · rw [← he2]
                exact hid
              · simp only [enqueues, hmsg]
                rw [he2]
            · intro hfalse
              rw [isEndWithId] at hfalse
              rw [haft] at hfalse
              simp [ht, hid] at hfalse
          · simp only [Bool.not_eq_true] at hid
            refine ⟨?_, ?_, ?_⟩
            · simp [on_message, isEndWithId, pyGet, ht, haft, hid]
            · intro e he
              simp [on_message, pyGet, ht, haft, hid] at he
            · intro hfalse
              simp [enqueues, on_message, pyGet, ht, haft, hid]
        | null =>
          refine ⟨?_, ?_, ?_⟩ <;>
            simp [on_message, isEndWithId, enqueues, pyGet, ht, haft]
        | bool b =>
          refine ⟨?_, ?_, ?_⟩ <;>
            simp [on_message, isEndWithId, enqueues, pyGet, ht, haft]
        | num n =>
          refine ⟨?_, ?_, ?_⟩ <;>
            simp [on_message, isEndWithId, enqueues, pyGet, ht, haft]
        | str t =>
          refine ⟨?_, ?_, ?_⟩ <;>
            simp [on_message, isEndWithId, enqueues, pyGet, ht, haft]
        | arr l2 =>
          refine ⟨?_, ?_, ?_⟩ <;>
            simp [on_message, isEndWithId, enqueues, pyGet, ht, haft]
      · simp only [Bool.not_eq_true] at ht
        simp [on_message, isEndWithId, enqueues, pyGet, ht]
    | null => simp [on_message, isEndWithId, enqueues, pyGet]
    | bool b => simp [on_message, isEndWithId, enqueues, pyGet]
    | num n => simp [on_message, isEndWithId, enqueues, pyGet]
    | str s => simp [on_message, isEndWithId, enqueues, pyGet]
    | arr l2 => simp [on_message, isEndWithId, enqueues, pyGet]

/-- C6 witness: a concrete finished-event message with id `evt-7`
enqueues an event. -/
theorem C6_enqueue_characterisation_witness :
    ∃ e, on_message (.payload (.obj [("type", .str "end"),
        ("after", .obj [("id", .str "evt-7")])])) = .enqueued e :=
  (C6_enqueue_characterisation (.payload (.obj [("type", .str "end"),
    ("after", .obj [("id", .str "evt-7")])]))).1.mpr rfl

/-- C10: an accepted finished-event message whose `after` record omits
`labels` and `has_snapshot` still yields a fully populated event — the
defaults `[]` and `False` are substituted — and that event is processed
as `skipped`: accepted, with no fetch, detector or dispatch call and no
error. -/
theorem C10_field_defaults (l a : List (String × Json)) (idv : Json)
    (ht : jlookup l "type" = some (.str "end"))
    (ha : jlookup l "after" = some (.obj a))
    (hid : jlookup a "id" = some idv)
    (htr : idv.truthy = true)
    (hlab : jlookup a "labels" = none)
    (hsnap : jlookup a "has_snapshot" = none) :
    on_message (.payload (.obj l)) =
      .enqueued ⟨idv, (jlookup a "camera").getD .null, .arr [], .bool false⟩
    ∧ ∀ (fetch : FetchResult) (dets : List DetectionResult),
        process_event
          ⟨idv, (jlookup a "camera").getD .null, .arr [], .bool false⟩
          fetch dets = ⟨.skipped, [], [], false, false⟩ := by
  constructor
  · simp [on_message, pyGet, ht, ha, hid, hlab, hsnap, htr, Json.isStrEq]
  · intro fetch dets
    simp [process_event, Json.truthy]

/-- C10 witness: message for `evt-5` whose `after` has only `id` and
`camera`; the enqueued event carries the defaults. -/
theorem C10_field_defaults_witness :
    on_message (.payload (.obj [("type", .str "end"),
        ("after", .obj [("id", .str "evt-5"), ("camera", .str "porch")])])) =
      .enqueued ⟨.str "evt-5",
        (jlookup [("id", .str "evt-5"), ("camera", .str "porch")]
          "camera").getD .null, .arr [], .bool false⟩ :=
  (C10_field_defaults [("type", .str "end"),
      ("after", .obj [("id", .str "evt-5"), ("camera", .str "porch")])]
    [("id", .str "evt-5"), ("camera", .str "porch")] (.str "evt-5")
    rfl rfl rfl rfl rfl rfl).1

/-- C4 counterexample: a worker iteration whose processing chain raises
`"boom"` on event `evt-9` logs exactly `"Error processing event: boom"`
— the event identifier does not occur in the log line, contradicting
"logged with the event identifier".  The loop does resume. -/
theorem C4_log_lacks_identifier_counterexample :
    workerIter (fun _ => .error "boom") false
        ⟨[⟨.str "evt-9", .null, .arr [], .bool true⟩], false, [], []⟩ =
      .ok (⟨[], false, [], ["Error processing event: boom"]⟩, true)
    ∧ ¬ List.IsInfix "evt-9".toList ("Error processing event: boom").toList :=
  ⟨rfl, by decide⟩

/-- C4 (amended): every failure raised by the processing chain is caught
at the worker boundary — a worker iteration never returns an escaping
exception — and on a failure the worker logs
`"Error processing event: " ++ msg` (a line carrying the error but not
the event identifier) and resumes its loop. -/
theorem C4_worker_contains_failures (proc : Event → Except String ProcResult)
    (stopNow : Bool) (s : WorkerState) :
    (∃ p, workerIter proc stopNow s = .ok p)
    ∧ (∀ (e : Event) (rest : List Event) (msg : String),
        s.stopFlag = false → s.pending = e :: rest → proc e = .error msg →
        workerIter proc stopNow s =
          .ok (⟨rest, stopNow, s.processed,
            s.logs ++ ["Error processing event: " ++ msg]⟩, true)) := by
  constructor
  · obtain ⟨pend, stop, procd, lgs⟩ := s
    cases stop with
    | true => exact ⟨(⟨pend, true, procd, lgs⟩, false), rfl⟩
    | false =>
      cases pend with
      | nil => exact ⟨(⟨[], stopNow, procd, lgs⟩, true), rfl⟩
      | cons e rest =>
        cases hproc : proc e with
        | ok r =>
          exact ⟨(⟨rest, stopNow, procd ++ [(e, r)], lgs⟩, true),
            by simp [workerIter, hproc]⟩
        | error msg =>
          exact ⟨(⟨rest, stopNow, procd,
            lgs ++ ["Error processing event: " ++ msg]⟩, true),
            by simp [workerIter, hproc]⟩
  · intro e rest msg hs hp hproc
    simp [workerIter, hs, hp, hproc]

/-- C4 witness: a failing event is absorbed — the iteration returns
normally with the error logged and the loop continuing. -/
theorem C4_worker_contains_failures_witness :
    workerIter (fun _ => .error "oops") false
        ⟨[⟨.str "evt-8", .null, .arr [], .bool true⟩], false, [], []⟩ =
      .ok (⟨[], false, [], ["Error processing event: oops"]⟩, true) :=
  (C4_worker_contains_failures (fun _ => .error "oops") false
    ⟨[⟨.str "evt-8", .null, .arr [], .bool true⟩], false, [], []⟩).2
    ⟨.str "evt-8", .null, .arr [], .bool true⟩ [] "oops" rfl rfl rfl

/-- C7: once the worker observes the stop flag it performs no new
dequeue (state untouched, loop exits); an event dequeued while the stop
signal arrives mid-iteration still has its full pipeline result recorded
before the loop exits on the next check; and queue items present when
stopping begins are not guaranteed to be drained — a run exists that
terminates with the queue non-empty. -/
theorem C7_shutdown (proc : Event → Except String ProcResult) :
    (∀ (b : Bool) (s : WorkerState), s.stopFlag = true →
        workerIter proc b s = .ok (s, false))
    ∧ (∀ (s : WorkerState) (e : Event) (rest : List Event) (r : ProcResult),
        s.stopFlag = false → s.pending = e :: rest → proc e = .ok r →
        workerIter proc true s =
          .ok (⟨rest, true, s.processed ++ [(e, r)], s.logs⟩, true)
        ∧ ∀ b2, workerIter proc b2
              ⟨rest, true, s.processed ++ [(e, r)], s.logs⟩ =
            .ok (⟨rest, true, s.processed ++ [(e, r)], s.logs⟩, false))
    ∧ (∃ (p2 : Event → Except String ProcResult) (stops : List Bool)
        (s s2 : WorkerState),
        workerRun p2 stops s = .ok s2 ∧ s2.pending ≠ []) := by
  refine ⟨?_, ?_, ?_⟩
  · intro b s hs
    simp [workerIter, hs]
  · intro s e rest r hs hp hproc
    exact ⟨by simp [workerIter, hs, hp, hproc], fun b2 => by simp [workerIter]⟩
  · refine ⟨fun _ => .ok ⟨.skipped, [], [], false, false⟩, [true, false],
      ⟨[⟨.str "a", .null, .arr [], .bool false⟩,
        ⟨.str "b", .null, .arr [], .bool false⟩], false, [], []⟩,
      ⟨[⟨.str "b", .null, .arr [], .bool false⟩], true,
        [(⟨.str "a", .null, .arr [], .bool false⟩,
          ⟨.skipped, [], [], false, false⟩)], []⟩, rfl, by simp⟩

/-- C7 witness: a worker whose stop flag is set exits immediately
without dequeuing the pending item. -/
theorem C7_shutdown_witness :
    workerIter (fun _ => .error "x") true
        ⟨[⟨.str "c", .null, .arr [], .bool false⟩], true, [], []⟩ =
      .ok (⟨[⟨.str "c", .null, .arr [], .bool false⟩], true, [], []⟩, false) :=
  (C7_shutdown (fun _ => .error "x")).1 true
    ⟨[⟨.str "c", .null, .arr [], .bool false⟩], true, [], []⟩ rfl

end FrigateReviewer
